import Mathlib

/-!
Shallow embedding of the `wamp-rs/wamp-client` repository.

The embedding covers the pending-operation table (`Context`, from
`src/sync/context.rs`), the single-threaded dispatch engine
(`src/sync/client.rs`), the threaded client and its identifier counters
(`src/threads/client.rs`), and the blocking request helper
(`src/threads/pubsub.rs`).

Modelling conventions:
* Message payload structures carry exactly the identifier fields the
  dispatched code reads (`request_id`, `subscription`); payload fields the
  correlation logic never inspects are represented by a single opaque
  `payload : Nat` where a structure would otherwise be empty.
* Boxed callbacks (`Box<dyn FnMut(Context, T) -> Context>`) are modelled by
  opaque labels of a type parameter `κ`; the semantics of running a callback
  is an environment `run : κ → CbArg → CbContext κ` supplied to the dispatch
  functions.  Dispatch additionally reports which label was invoked and with
  which argument, so that theorems can speak about callback invocation.
* `u64` counters are `Nat` with an explicit `% 2 ^ 64` where the code adds.
* The transport socket is not modelled; the outbound queue (`messages`) is a
  list of protocol messages.
-/

/-- Event-kind tag carried by a protocol `Error` message
(`WampErrorEvent` in `wamp_core`, matched in `src/sync/client.rs`). -/
inductive WampErrorEvent
  | call
  | unsubscribe
  | subscribe
  | publish
  | register
  | unregister
  | invocation
  | cancel
deriving DecidableEq

/-- Protocol `Error` message: the originating request identifier plus the
event-kind tag naming the correlation category. -/
structure WampError where
  event : WampErrorEvent
  request_id : Nat
deriving DecidableEq

/-- `Register` request (identifier fields only). -/
structure Register where
  request_id : Nat
deriving DecidableEq

/-- `Registered` response. -/
structure Registered where
  request_id : Nat
deriving DecidableEq

/-- `Unregister` request. -/
structure Unregister where
  request_id : Nat
deriving DecidableEq

/-- `Unregistered` response. -/
structure Unregistered where
  request_id : Nat
deriving DecidableEq

/-- `Subscribe` request. -/
structure Subscribe where
  request_id : Nat
deriving DecidableEq

/-- `Subscribed` confirmation: request identifier plus the peer-assigned
subscription identifier. -/
structure Subscribed where
  request_id : Nat
  subscription : Nat
deriving DecidableEq

/-- `Unsubscribe` request: request identifier plus the subscription it
tears down (the code reads `unsubscribe.subscription`). -/
structure Unsubscribe where
  request_id : Nat
  subscription : Nat
deriving DecidableEq

/-- `Unsubscribed` confirmation (the code reads only `request_id`). -/
structure Unsubscribed where
  request_id : Nat
deriving DecidableEq

/-- `Publish` request. -/
structure Publish where
  request_id : Nat
deriving DecidableEq

/-- `Published` confirmation. -/
structure Published where
  request_id : Nat
deriving DecidableEq

/-- `Call` request. -/
structure Call where
  request_id : Nat
deriving DecidableEq

/-- `Result` response (`WampResult` in the source). -/
structure WampResult where
  request_id : Nat
deriving DecidableEq

/-- `Invocation` message. -/
structure Invocation where
  request_id : Nat
deriving DecidableEq

/-- `Cancel` request. -/
structure Cancel where
  request_id : Nat
deriving DecidableEq

/-- `Interrupt` response. -/
structure Interrupt where
  request_id : Nat
deriving DecidableEq

/-- `Event` message: the code's correlation reads only `subscription`. -/
structure Event where
  subscription : Nat
deriving DecidableEq

/-- `Welcome` session message (payload opaque to correlation). -/
structure Welcome where
  payload : Nat
deriving DecidableEq

/-- `Challenge` session message. -/
structure Challenge where
  payload : Nat
deriving DecidableEq

/-- `Goodbye` session message. -/
structure Goodbye where
  payload : Nat
deriving DecidableEq

/-- `Abort` session message. -/
structure Abort where
  payload : Nat
deriving DecidableEq

/-- `Hello` message (client-to-router, invalid when received). -/
structure Hello where
  payload : Nat
deriving DecidableEq

/-- `Authenticate` message (client-to-router, invalid when received). -/
structure Authenticate where
  payload : Nat
deriving DecidableEq

/-- `Yield` message (client-to-router, invalid when received). -/
structure Yield where
  request_id : Nat
deriving DecidableEq

/-- The tagged `Messages` enum of `wamp_core`, with the variants matched by
the dispatch code of this repository. -/
inductive Messages
  | hello (h : Hello)
  | welcome (w : Welcome)
  | abort (a : Abort)
  | challenge (c : Challenge)
  | authenticate (a : Authenticate)
  | goodbye (g : Goodbye)
  | error (e : WampError)
  | register (r : Register)
  | registered (r : Registered)
  | unregister (u : Unregister)
  | unregistered (u : Unregistered)
  | call (c : Call)
  | invocation (i : Invocation)
  | yield (y : Yield)
  | result (r : WampResult)
  | subscribe (s : Subscribe)
  | subscribed (s : Subscribed)
  | unsubscribe (u : Unsubscribe)
  | unsubscribed (u : Unsubscribed)
  | publish (p : Publish)
  | published (p : Published)
  | event (e : Event)
  | interrupt (i : Interrupt)
  | cancel (c : Cancel)
  | extension (v : Nat)
deriving DecidableEq

/-- The pending-operation table of `src/sync/context.rs`: one correlation
list per category (entries are `(request, callback-label)` pairs) plus the
outbound message queue.  `κ` is the type of callback labels. -/
structure CbContext (κ : Type) where
  registrations : List (Register × κ)
  unregistrations : List (Unregister × κ)
  subscriptions : List (Subscribe × κ)
  unsubscriptions : List (Unsubscribe × κ)
  publications : List (Publish × κ)
  calls : List (Call × κ)
  events : List (Subscribed × κ)
  invocations : List (Registered × κ)
  messages : List Messages
  cancelations : List (Cancel × κ)
deriving DecidableEq

namespace CbContext

/-- `Context::new`: every list starts empty (the socket handle is not
modelled). -/
def new : CbContext κ :=
  { registrations := []
    unregistrations := []
    subscriptions := []
    unsubscriptions := []
    publications := []
    calls := []
    events := []
    invocations := []
    messages := []
    cancelations := [] }

/-- `Context::extend` from `src/sync/context.rs` lines 532-542: appends the
lists of `ctx` onto `self`.  Note the source extends `registrations`,
`unregistrations`, `events`, `unsubscriptions`, `subscriptions`,
`publications`, `calls`, `invocations` and `messages`, and does not touch
`cancelations`. -/
def extend (self ctx : CbContext κ) : CbContext κ :=
  { self with
    registrations := self.registrations ++ ctx.registrations
    unregistrations := self.unregistrations ++ ctx.unregistrations
    events := self.events ++ ctx.events
    unsubscriptions := self.unsubscriptions ++ ctx.unsubscriptions
    subscriptions := self.subscriptions ++ ctx.subscriptions
    publications := self.publications ++ ctx.publications
    calls := self.calls ++ ctx.calls
    invocations := self.invocations ++ ctx.invocations
    messages := self.messages ++ ctx.messages }

/-- `find_register` (macro `create_find_methods`): first entry of
`registrations` whose stored request identifier equals the response's. -/
def find_register (c : CbContext κ) (registered : Registered) :
    Option (Register × κ) :=
  c.registrations.find? (fun i => i.1.request_id == registered.request_id)

/-- `find_unregister`. -/
def find_unregister (c : CbContext κ) (unregister : Unregistered) :
    Option (Unregister × κ) :=
  c.unregistrations.find? (fun i => i.1.request_id == unregister.request_id)

/-- `find_event`: keyed by subscription identifier instead of request
identifier. -/
def find_event (c : CbContext κ) (event : Event) :
    Option (Subscribed × κ) :=
  c.events.find? (fun i => i.1.subscription == event.subscription)

/-- `find_unsubscribe`. -/
def find_unsubscribe (c : CbContext κ) (unsubscribe : Unsubscribed) :
    Option (Unsubscribe × κ) :=
  c.unsubscriptions.find? (fun i => i.1.request_id == unsubscribe.request_id)

/-- `find_subscribe`. -/
def find_subscribe (c : CbContext κ) (subscribe : Subscribed) :
    Option (Subscribe × κ) :=
  c.subscriptions.find? (fun i => i.1.request_id == subscribe.request_id)

/-- `find_publish`. -/
def find_publish (c : CbContext κ) (publish : Published) :
    Option (Publish × κ) :=
  c.publications.find? (fun i => i.1.request_id == publish.request_id)

/-- `find_call`. -/
def find_call (c : CbContext κ) (call : WampResult) :
    Option (Call × κ) :=
  c.calls.find? (fun i => i.1.request_id == call.request_id)

/-- `find_invocation` (stored key type is `Registered`). -/
def find_invocation (c : CbContext κ) (invocation : Invocation) :
    Option (Registered × κ) :=
  c.invocations.find? (fun i => i.1.request_id == invocation.request_id)

/-- `find_cancel` (looked up by an `Interrupt`). -/
def find_cancel (c : CbContext κ) (interrupt : Interrupt) :
    Option (Cancel × κ) :=
  c.cancelations.find? (fun i => i.1.request_id == interrupt.request_id)

/-- `find_by_error_unsubscribe` (macro `create_find_by_error_method`). -/
def find_by_error_unsubscribe (c : CbContext κ) (error : WampError) :
    Option (Unsubscribe × κ) :=
  c.unsubscriptions.find? (fun i => i.1.request_id == error.request_id)

/-- `find_by_error_subscribe`. -/
def find_by_error_subscribe (c : CbContext κ) (error : WampError) :
    Option (Subscribe × κ) :=
  c.subscriptions.find? (fun i => i.1.request_id == error.request_id)

/-- `find_by_error_publish`. -/
def find_by_error_publish (c : CbContext κ) (error : WampError) :
    Option (Publish × κ) :=
  c.publications.find? (fun i => i.1.request_id == error.request_id)

/-- `find_by_error_register`. -/
def find_by_error_register (c : CbContext κ) (error : WampError) :
    Option (Register × κ) :=
  c.registrations.find? (fun i => i.1.request_id == error.request_id)

/-- `find_by_error_unregister`. -/
def find_by_error_unregister (c : CbContext κ) (error : WampError) :
    Option (Unregister × κ) :=
  c.unregistrations.find? (fun i => i.1.request_id == error.request_id)

/-- `find_by_error_cancel`. -/
def find_by_error_cancel (c : CbContext κ) (error : WampError) :
    Option (Cancel × κ) :=
  c.cancelations.find? (fun i => i.1.request_id == error.request_id)

/-- `find_by_error_call`. -/
def find_by_error_call (c : CbContext κ) (error : WampError) :
    Option (Call × κ) :=
  c.calls.find? (fun i => i.1.request_id == error.request_id)

end CbContext

namespace Sync

/-- Argument with which a callback is invoked by the single-threaded
dispatch engine: `Ok(payload)`, `Err(error)`, or a plain (non-`Result`)
payload for events and session-level callbacks. -/
inductive CbArg
  | okArg (m : Messages)
  | failArg (e : WampError)
  | plainArg (m : Messages)
deriving DecidableEq

/-- Errors which `Client::get_message_context` can return.  `extensionTodo`
stands for the source's unfinished `todo!()` branch on `Extension`
messages. -/
inductive DispatchError
  | abortedBy (a : Abort)
  | invalidFrameReceived (m : Messages)
  | extensionTodo
deriving DecidableEq

/-- The single-threaded `Client` of `src/sync/client.rs`: the live
`Context` plus the optional session-level callback slots (the socket is
not modelled). -/
structure Client (κ : Type) where
  context : CbContext κ
  on_welcome : Option κ := none
  on_challenge : Option κ := none
  on_goodbye : Option κ := none
  on_extension : Option κ := none
deriving DecidableEq

/-- `Client::handle_and_empty_contexts` from `src/sync/client.rs` lines
98-173, acting on the client's `Context`.  `Vec::retain(p)` keeps the
elements satisfying `p`, so it is embedded as `List.filter`.  The source
always returns `Ok`, so no error component is needed. -/
def handle_and_empty_contexts (c : CbContext κ) (message : Messages) :
    CbContext κ × Option Messages :=
  match message with
  | .error error =>
    match error.event with
    | .call => (c, none)
    | .unsubscribe =>
      let l := c.unsubscriptions.filter
        (fun i => i.1.request_id == error.request_id)
      ({ c with unsubscriptions := l }, some (.error error))
    | .subscribe =>
      let l := c.subscriptions.filter
        (fun i => i.1.request_id == error.request_id)
      ({ c with subscriptions := l }, some (.error error))
    | .publish =>
      let l := c.publications.filter
        (fun i => i.1.request_id == error.request_id)
      ({ c with publications := l }, some (.error error))
    | .register =>
      let l := c.registrations.filter
        (fun i => i.1.request_id == error.request_id)
      ({ c with registrations := l }, some (.error error))
    | .unregister =>
      let l := c.unregistrations.filter
        (fun i => i.1.request_id == error.request_id)
      ({ c with unregistrations := l }, some (.error error))
    | .invocation =>
      let l := c.invocations.filter
        (fun i => i.1.request_id == error.request_id)
      ({ c with invocations := l }, some (.error error))
    | .cancel =>
      let l := c.invocations.filter
        (fun i => i.1.request_id == error.request_id)
      ({ c with invocations := l }, some (.error error))
  | .unsubscribed unsubscribed =>
    match c.unsubscriptions.find?
        (fun i => i.1.request_id == unsubscribed.request_id) with
    | some (unsubscribe, _) =>
      let subscription := unsubscribe.subscription
      match c.events.find? (fun i => i.1.subscription == subscription) with
      | some (subscribed, _) =>
        let request_id := subscribed.request_id
        let us := c.unsubscriptions.filter
          (fun i => i.1.subscription != subscription)
        let ev := c.events.filter
          (fun i => i.1.subscription != subscription)
        let su := c.subscriptions.filter
          (fun i => i.1.request_id != request_id)
        ({ c with unsubscriptions := us, events := ev, subscriptions := su },
         some (.unsubscribed unsubscribed))
      | none => (c, some (.unsubscribed unsubscribed))
    | none => (c, some (.unsubscribed unsubscribed))
  | _ => (c, none)

/-- `Client::get_message_context` from `src/sync/client.rs` lines 210-442.
`run` gives the semantics of invoking a callback label on a fresh detached
context.  The result carries the returned message, the context produced by
the invoked callback (`None` when no entry matched), and — as
instrumentation for the specification — the label that was invoked together
with its argument. -/
def get_message_context (run : κ → CbArg → CbContext κ) (cl : Client κ)
    (message : Option Messages) :
    Except DispatchError
      (Option (Messages × Option (CbContext κ) × Option (κ × CbArg))) :=
  match message with
  | some message =>
    match message with
    | .abort a => .error (.abortedBy a)
    | .error error =>
      match error.event with
      | .call =>
        match cl.context.find_by_error_call error with
        | some (_, k) =>
          .ok (some (.error error, some (run k (.failArg error)),
            some (k, .failArg error)))
        | none => .ok (some (.error error, none, none))
      | .unsubscribe =>
        match cl.context.find_by_error_unsubscribe error with
        | some (_, k) =>
          .ok (some (.error error, some (run k (.failArg error)),
            some (k, .failArg error)))
        | none => .ok (some (.error error, none, none))
      | .subscribe =>
        match cl.context.find_by_error_subscribe error with
        | some (_, k) =>
          .ok (some (.error error, some (run k (.failArg error)),
            some (k, .failArg error)))
        | none => .ok (some (.error error, none, none))
      | .publish =>
        match cl.context.find_by_error_publish error with
        | some (_, k) =>
          .ok (some (.error error, some (run k (.failArg error)),
            some (k, .failArg error)))
        | none => .ok (some (.error error, none, none))
      | .register =>
        match cl.context.find_by_error_register error with
        | some (_, k) =>
          .ok (some (.error error, some (run k (.failArg error)),
            some (k, .failArg error)))
        | none => .ok (some (.error error, none, none))
      | .unregister =>
        match cl.context.find_by_error_unregister error with
        | some (_, k) =>
          .ok (some (.error error, some (run k (.failArg error)),
            some (k, .failArg error)))
        | none => .ok (some (.error error, none, none))
      | .invocation => .ok (some (.error error, none, none))
      | .cancel =>
        match cl.context.find_by_error_cancel error with
        | some (_, k) =>
          .ok (some (.error error, some (run k (.failArg error)),
            some (k, .failArg error)))
        | none => .ok (some (.error error, none, none))
    | .event event =>
      match cl.context.find_event event with
      | some (_, k) =>
        .ok (some (.event event, some (run k (.plainArg (.event event))),
          some (k, .plainArg (.event event))))
      | none => .ok (some (.event event, none, none))
    | .goodbye goodbye =>
      match cl.on_goodbye with
      | some k =>
        .ok (some (.goodbye goodbye,
          some (run k (.plainArg (.goodbye goodbye))),
          some (k, .plainArg (.goodbye goodbye))))
      | none => .ok (some (.goodbye goodbye, none, none))
    | .interrupt interrupt =>
      match cl.context.find_cancel interrupt with
      | some (_, k) =>
        .ok (some (.interrupt interrupt,
          some (run k (.okArg (.interrupt interrupt))),
          some (k, .okArg (.interrupt interrupt))))
      | none => .ok (some (.interrupt interrupt, none, none))
    | .published published =>
      match cl.context.find_publish published with
      | some (_, k) =>
        .ok (some (.published published,
          some (run k (.okArg (.published published))),
          some (k, .okArg (.published published))))
      | none => .ok (some (.published published, none, none))
    | .registered registered =>
      match cl.context.find_register registered with
      | some (_, k) =>
        .ok (some (.registered registered,
          some (run k (.okArg (.registered registered))),
          some (k, .okArg (.registered registered))))
      | none => .ok (some (.registered registered, none, none))
    | .result result =>
      match cl.context.find_call result with
      | some (_, k) =>
        .ok (some (.result result,
          some (run k (.okArg (.result result))),
          some (k, .okArg (.result result))))
      | none => .ok (some (.result result, none, none))
    | .subscribed subscribed =>
      match cl.context.find_subscribe subscribed with
      | some (_, k) =>
        .ok (some (.subscribed subscribed,
          some (run k (.okArg (.subscribed subscribed))),
          some (k, .okArg (.subscribed subscribed))))
      | none => .ok (some (.subscribed subscribed, none, none))
    | .unregistered unregistered =>
      match cl.context.find_unregister unregistered with
      | some (_, k) =>
        .ok (some (.unregistered unregistered,
          some (run k (.okArg (.unregistered unregistered))),
          some (k, .okArg (.unregistered unregistered))))
      | none => .ok (some (.unregistered unregistered, none, none))
    | .invocation invocation =>
      match cl.context.find_invocation invocation with
      | some (_, k) =>
        .ok (some (.invocation invocation,
          some (run k (.okArg (.invocation invocation))),
          some (k, .okArg (.invocation invocation))))
      | none => .ok (some (.invocation invocation, none, none))
    | .unsubscribed unsubscribed =>
      match cl.context.find_unsubscribe unsubscribed with
      | some (_, k) =>
        .ok (some (.unsubscribed unsubscribed,
          some (run k (.okArg (.unsubscribed unsubscribed))),
          some (k, .okArg (.unsubscribed unsubscribed))))
      | none => .ok (some (.unsubscribed unsubscribed, none, none))
    | .welcome welcome =>
      match cl.on_welcome with
      | some k =>
        .ok (some (.welcome welcome,
          some (run k (.plainArg (.welcome welcome))),
          some (k, .plainArg (.welcome welcome))))
      | none => .ok (some (.welcome welcome, none, none))
    | .challenge challenge =>
      match cl.on_challenge with
      | some k =>
        .ok (some (.challenge challenge,
          some (run k (.plainArg (.challenge challenge))),
          some (k, .plainArg (.challenge challenge))))
      | none => .ok (some (.challenge challenge, none, none))
    | .extension _ => .error .extensionTodo
    | .cancel cancel => .error (.invalidFrameReceived (.cancel cancel))
    | .call call => .error (.invalidFrameReceived (.call call))
    | .yield y => .error (.invalidFrameReceived (.yield y))
    | .authenticate a => .error (.invalidFrameReceived (.authenticate a))
    | .hello hello => .error (.invalidFrameReceived (.hello hello))
    | .publish publish => .error (.invalidFrameReceived (.publish publish))
    | .register register =>
      .error (.invalidFrameReceived (.register register))
    | .subscribe subscribe =>
      .error (.invalidFrameReceived (.subscribe subscribe))
    | .unregister unregister =>
      .error (.invalidFrameReceived (.unregister unregister))
    | .unsubscribe unsubscribe =>
      .error (.invalidFrameReceived (.unsubscribe unsubscribe))
  | none => .ok none

/-- `Client::extend_context` from `src/sync/client.rs` lines 196-208:
merge the context produced by a callback into the live context and return
the message. -/
def extend_context (cl : Client κ)
    (contexts : Option (Messages × Option (CbContext κ))) :
    Client κ × Option Messages :=
  match contexts with
  | some (m, some context) =>
    ({ cl with context := cl.context.extend context }, some m)
  | some (m, none) => (cl, some m)
  | none => (cl, none)

/-- `Client::read_contexts` from `src/sync/client.rs` lines 184-194: flush
the outbound queue (modelled by clearing it), dispatch through
`get_message_context`, then merge the produced context with
`extend_context`.  The invocation record is passed through for the
specification. -/
def read_contexts (run : κ → CbArg → CbContext κ) (cl : Client κ)
    (message : Option Messages) :
    Except DispatchError (Client κ × Option Messages × Option (κ × CbArg)) :=
  let cl := { cl with context := { cl.context with messages := [] } }
  match get_message_context run cl message with
  | .error e => .error e
  | .ok none => .ok (cl, none, none)
  | .ok (some (m, ctx, inv)) =>
    let r := extend_context cl (some (m, ctx))
    .ok (r.1, r.2, inv)

end Sync

/-- Inbound transport frame kinds (`tungstenite::Message`). -/
inductive Frame
  | text (s : String)
  | binary (b : List Nat)
  | ping (b : List Nat)
  | pong (b : List Nat)
  | close
  | frameRaw
deriving DecidableEq

/-- Codec failure when decoding a text payload (`serde_json` error,
opaque). -/
structure CodecError where
  code : Nat
deriving DecidableEq

/-- Errors a read can produce: codec failure, the unsupported-encoding
condition for `Binary` frames, or the impossible raw-frame condition. -/
inductive ReadError
  | codec (e : CodecError)
  | unsupportedEncoding
  | rawFrame
deriving DecidableEq

namespace Sync

/-- `Client::read` of the single-threaded engine (`src/sync/client.rs`
lines 444-454), parameterized by the codec's `decode`.  `Text` decodes,
`Ping`/`Close`/`Pong` yield no message, `Binary` is the
unsupported-encoding error, a raw tungstenite frame is an error. -/
def read (decode : String → Except CodecError Messages) (frame : Frame) :
    Except ReadError (Option Messages) :=
  match frame with
  | .text s =>
    match decode s with
    | .ok m => .ok (some m)
    | .error e => .error (.codec e)
  | .ping _ => .ok none
  | .close => .ok none
  | .binary _ => .error .unsupportedEncoding
  | .pong _ => .ok none
  | .frameRaw => .error .rawFrame

end Sync

namespace Threads

/-- The threaded `Client` of `src/threads/client.rs`: the shared
`request_id` and `routing_id` counters (`Arc<Mutex<u64>>`, modelled by the
`Nat` stored under each mutex; the socket and event registry are not
needed for the counter claims). -/
structure Client where
  request_id : Nat
  routing_id : Nat
deriving DecidableEq

namespace Client

/-- `Client::new_routing_id` (`src/threads/client.rs` lines 54-58): copies
the value stored under the `request_id` mutex, increments the local copy,
and returns it.  The stored counter is never written back, which the
returned unchanged `Client` records. -/
def new_routing_id (self : Client) : Nat × Client :=
  let request_id := self.request_id
  let request_id := (request_id + 1) % 2 ^ 64
  (request_id, self)

/-- `Client::new_request_id` (`src/threads/client.rs` lines 60-64): same
body as `new_routing_id` — a copy of the `request_id` counter plus one,
with no write back. -/
def new_request_id (self : Client) : Nat × Client :=
  let request_id := self.request_id
  let request_id := (request_id + 1) % 2 ^ 64
  (request_id, self)

end Client

/-- `Client::read` of the threaded engine (`src/threads/client.rs` lines
190-195): only `Text` frames are decoded; every other frame kind yields a
silent no-message result. -/
def read (decode : String → Except CodecError Messages) (frame : Frame) :
    Except ReadError (Option Messages) :=
  match frame with
  | .text s =>
    match decode s with
    | .ok m => .ok (some m)
    | .error e => .error (.codec e)
  | _ => .ok none

/-- Errors of the blocking request helper (`src/error.rs`): the fixed
timeout and the missing-subscription precondition. -/
inductive HelperError
  | timeOutError
  | noSubscription
deriving DecidableEq

/-- The polling loop of `create_callback_handler`
(`src/threads/pubsub.rs` lines 47-63), with the clock injectable: the
trace lists, for each loop iteration, the elapsed milliseconds since
`time_start` together with the contents of the success cell and the error
cell at that iteration.  Each iteration first compares elapsed time
against the 10-second timeout, then checks the success cell, then the
error cell; otherwise it loops.  `none` means the trace ended with the
loop still polling. -/
def poll_cells (trace : List (Nat × Option β × Option WampError)) :
    Option (Except HelperError (Except WampError β)) :=
  match trace with
  | [] => none
  | (elapsed, success, errCell) :: rest =>
    if 10000 < elapsed then some (.error .timeOutError)
    else
      match success with
      | some result => some (.ok (.ok result))
      | none =>
        match errCell with
        | some e => some (.ok (.error e))
        | none => poll_cells rest

/-- The `Subscription` of `src/threads/pubsub.rs`: the client handle, the
optional stored `Subscribe` request and `Subscribed` confirmation, and the
routing identifiers it allocated. -/
structure Subscription where
  client : Client
  subscribe : Option Subscribe := none
  subscribed : Option Subscribed := none
  routing_ids : List Nat := []
deriving DecidableEq

/-- `Subscription::events` (`src/threads/pubsub.rs` lines 79-97): requires
a stored `Subscribed` confirmation, allocates a routing identifier, and
registers an `Event` listener whose guard fires exactly when the incoming
event's `subscription` equals the *request identifier* of the stored
confirmation (`let subscribed = subscribed.request_id` in the source).
The registered guard is returned alongside the updated subscription and
the routing identifier. -/
def Subscription.events (s : Subscription) :
    Except HelperError (Subscription × Nat × (Event → Bool)) :=
  match s.subscribed with
  | some subscribed =>
    let routing_id := s.client.new_routing_id.1
    let s := { s with routing_ids := s.routing_ids ++ [routing_id] }
    let subscribed := subscribed.request_id
    .ok (s, routing_id, fun event => event.subscription == subscribed)
  | none => .error .noSubscription

end Threads

/-! Concrete fixtures used by the counterexamples and witnesses. -/

/-- Callback semantics producing an empty detached context (a callback that
only inspects its argument). -/
def run0 : Nat → Sync.CbArg → CbContext Nat := fun _ _ => CbContext.new

/-- A codec that rejects every payload; only used for frames that are never
decoded. -/
def decode0 : String → Except CodecError Messages := fun _ => .error { code := 0 }

/-- Context with two pending registrations, request identifiers 1 and 2. -/
def ctxC1 : CbContext Nat :=
  { CbContext.new with
    registrations := [({ request_id := 1 }, 10), ({ request_id := 2 }, 20)] }

/-- A protocol error of category Register answering request 1. -/
def errC1 : WampError := { event := .register, request_id := 1 }

/-- Client holding `ctxC1`. -/
def clC1 : Sync.Client Nat := { context := ctxC1 }

/-- Context with a single pending registration, request identifier 1,
callback label 7. -/
def ctxC2 : CbContext Nat :=
  { CbContext.new with registrations := [({ request_id := 1 }, 7)] }

/-- Client holding `ctxC2`. -/
def clC2 : Sync.Client Nat := { context := ctxC2 }

/-- The `Registered` response answering request 1. -/
def regC2 : Registered := { request_id := 1 }

/-- Context with a pending unsubscription for subscription 42 and the
originating subscription entry, but no event entry. -/
def ctxC3 : CbContext Nat :=
  { CbContext.new with
    unsubscriptions := [({ request_id := 7, subscription := 42 }, 3)]
    subscriptions := [({ request_id := 5 }, 4)] }

/-- Like `ctxC3` but with the event entry for subscription 42 present. -/
def ctxC3w : CbContext Nat :=
  { CbContext.new with
    unsubscriptions := [({ request_id := 7, subscription := 42 }, 3)]
    events := [({ request_id := 5, subscription := 42 }, 6)]
    subscriptions := [({ request_id := 5 }, 4)] }

/-- A detached context holding one pending cancelation. -/
def ctxC4 : CbContext Nat :=
  { CbContext.new with cancelations := [({ request_id := 1 }, 0)] }

/-- Client with one pending registration under request identifier 2. -/
def clC9 : Sync.Client Nat :=
  { context := { CbContext.new with registrations := [({ request_id := 2 }, 5)] } }

/-- A concrete `Subscribed` confirmation whose request identifier (3) and
subscription identifier (42) differ. -/
def subC10 : Subscribed := { request_id := 3, subscription := 42 }

/-- A subscription handle holding `subC10`. -/
def sC10 : Threads.Subscription :=
  { client := { request_id := 0, routing_id := 0 }, subscribed := some subC10 }

/-- A concrete success payload for the poll-loop witness. -/
def subC7 : Subscribed := { request_id := 1, subscription := 8 }

/-- A concrete protocol error for the poll-loop witness. -/
def errC7 : WampError := { event := .subscribe, request_id := 1 }

/-! Theorems settling the claims. -/

/-- C8: merging detached contexts is associative — extending `S` with `A`
and then with `B` produces the same aggregate correlation lists and
outbound queue as extending `A` with `B` first and then extending `S` with
the result. -/
theorem extend_assoc {κ : Type} (S A B : CbContext κ) :
    (S.extend A).extend B = S.extend (A.extend B) := by
  cases S; cases A; cases B
  simp [CbContext.extend, List.append_assoc]

/-- C4 (amended): `extend(other)` appends the registrations,
unregistrations, subscriptions, unsubscriptions, publications, calls,
events and invocations lists and the outbound message queue of `other`
onto `self`, never deleting an existing entry of `self`; the cancelations
list of `self` is left unchanged and the cancelations of `other` are
dropped. -/
theorem extend_appends_lists {κ : Type} (S A : CbContext κ) :
    (S.extend A).registrations = S.registrations ++ A.registrations
    ∧ (S.extend A).unregistrations = S.unregistrations ++ A.unregistrations
    ∧ (S.extend A).subscriptions = S.subscriptions ++ A.subscriptions
    ∧ (S.extend A).unsubscriptions = S.unsubscriptions ++ A.unsubscriptions
    ∧ (S.extend A).publications = S.publications ++ A.publications
    ∧ (S.extend A).calls = S.calls ++ A.calls
    ∧ (S.extend A).events = S.events ++ A.events
    ∧ (S.extend A).invocations = S.invocations ++ A.invocations
    ∧ (S.extend A).messages = S.messages ++ A.messages
    ∧ (S.extend A).cancelations = S.cancelations := by
  refine ⟨rfl, rfl, rfl, rfl, rfl, rfl, rfl, rfl, rfl, rfl⟩

/-- C4 counterexample: extending an empty context with a context holding
one pending cancelation yields an empty cancelations list — the entry of
`other` is dropped, refuting the claim that every correlation list of
`other` is appended and no entry is ever dropped. -/
theorem extend_drops_cancelations :
    (CbContext.new.extend ctxC4).cancelations = []
    ∧ ctxC4.cancelations ≠ [] :=
  ⟨rfl, by decide⟩

/-- C5: evaluation of the threaded client's identifier generators.
`new_request_id` returns the stored counter plus one and leaves the
stored counter unchanged (the incremented copy is never written back), so
a second call on the returned client yields the same value; and
`new_routing_id` is the same computation on the request-identifier
counter, not the routing-identifier counter. -/
theorem new_request_id_lost_update (c : Threads.Client) :
    c.new_request_id = ((c.request_id + 1) % 2 ^ 64, c)
    ∧ c.new_request_id.2.new_request_id.1 = c.new_request_id.1
    ∧ c.new_routing_id = c.new_request_id := by
  exact ⟨rfl, rfl, rfl⟩

/-- C6 (amended): a Binary frame yields the unsupported-encoding error in
the single-threaded engine's read, but the threaded engine's read maps a
Binary frame to a silent no-message result — never a decoded message and
never an error. -/
theorem binary_frame_read_behavior
    (decode : String → Except CodecError Messages) (b : List Nat) :
    Sync.read decode (.binary b) = .error .unsupportedEncoding
    ∧ Threads.read decode (.binary b) = .ok none :=
  ⟨rfl, rfl⟩

/-- C6 counterexample: with a concrete codec, the threaded engine's read
returns a silent no-message result on a Binary frame instead of the
unsupported-encoding error. -/
theorem threads_read_binary_silent :
    Threads.read decode0 (.binary []) = .ok none
    ∧ Threads.read decode0 (.binary []) ≠ .error .unsupportedEncoding :=
  ⟨rfl, fun h => Except.noConfusion h⟩

/-- C1: at the failing input — registrations pending for requests 1 and 2,
and an incoming Error of category Register for request 1 — the dispatch
path (`read_contexts`) invokes the matching callback (label 10) with a
failure result but removes nothing from the registrations list, while
`handle_and_empty_contexts` keeps exactly the matching entry and deletes
the unrelated entry for request 2: the inverted `retain` predicate
`request_id == error.request_id` removes every entry except the matching
one. -/
theorem error_register_failing_input :
    Sync.read_contexts run0 clC1 (some (.error errC1)) =
      .ok (clC1, some (.error errC1), some (10, .failArg errC1))
    ∧ (Sync.handle_and_empty_contexts ctxC1 (.error errC1)).1.registrations
        = [({ request_id := 1 }, 10)] :=
  ⟨rfl, rfl⟩

/-- C2 counterexample: with one pending registration for request 1
(callback label 7), dispatching `Registered(request_id = 1)` invokes the
callback but returns the client unchanged — the pending entry is still in
the table, so dispatching the same `Registered` a second time invokes the
callback again, refuting the claim that the entry is removed and a second
identical response does not invoke the callback. -/
theorem registered_redelivery_reinvokes :
    Sync.read_contexts run0 clC2 (some (.registered regC2)) =
      .ok (clC2, some (.registered regC2), some (7, .okArg (.registered regC2)))
    ∧ clC2.context.registrations = [({ request_id := 1 }, 7)] :=
  ⟨rfl, rfl⟩

/-- C3 counterexample: with a pending unsubscription for subscription 42
and the originating subscription entry but no event entry, an
`Unsubscribed` confirmation matching the unsubscription leaves the context
completely unchanged — in particular the Unsubscribe entry is not removed,
refuting the claim that the cascade holds regardless of whether an event
entry exists. -/
theorem unsubscribed_without_event_entry_no_removal :
    Sync.handle_and_empty_contexts ctxC3 (.unsubscribed { request_id := 7 }) =
      (ctxC3, some (.unsubscribed { request_id := 7 }))
    ∧ ctxC3.unsubscriptions ≠ [] :=
  ⟨rfl, by decide⟩

/-- C3 (amended): when an `Unsubscribed` confirmation matches a pending
Unsubscribe entry, the cascade removal happens exactly when an event entry
sharing that Unsubscribe's subscription identifier exists: in that case the
Unsubscribe entries and event entries with that subscription identifier and
the Subscribe entries carrying the event entry's stored request identifier
are removed in the one operation, and a subsequent Event for that
subscription identifier finds no entry; when no event entry with that
subscription identifier exists, nothing is removed.  The message is
returned in every case. -/
theorem unsubscribed_cascade_spec {κ : Type} (c : CbContext κ)
    (u : Unsubscribed) (unsub : Unsubscribe) (k : κ)
    (hfind : c.unsubscriptions.find?
      (fun i => i.1.request_id == u.request_id) = some (unsub, k)) :
    (∀ subd : Subscribed, ∀ k2 : κ,
      c.events.find?
          (fun i => i.1.subscription == unsub.subscription) = some (subd, k2) →
      (Sync.handle_and_empty_contexts c (.unsubscribed u)).1 =
        { c with
          unsubscriptions := c.unsubscriptions.filter
            (fun i => i.1.subscription != unsub.subscription)
          events := c.events.filter
            (fun i => i.1.subscription != unsub.subscription)
          subscriptions := c.subscriptions.filter
            (fun i => i.1.request_id != subd.request_id) }
      ∧ ∀ ev : Event, ev.subscription = unsub.subscription →
          (Sync.handle_and_empty_contexts c (.unsubscribed u)).1.find_event ev
            = none)
    ∧ (c.events.find?
        (fun i => i.1.subscription == unsub.subscription) = none →
      (Sync.handle_and_empty_contexts c (.unsubscribed u)).1 = c)
    ∧ (Sync.handle_and_empty_contexts c (.unsubscribed u)).2 =
        some (.unsubscribed u) := by
  refine ⟨?_, ?_, ?_⟩
  · intro subd k2 hev
    have hstep : Sync.handle_and_empty_contexts c (.unsubscribed u) =
        ({ c with
          unsubscriptions := c.unsubscriptions.filter
            (fun i => i.1.subscription != unsub.subscription)
          events := c.events.filter
            (fun i => i.1.subscription != unsub.subscription)
          subscriptions := c.subscriptions.filter
            (fun i => i.1.request_id != subd.request_id) },
         some (.unsubscribed u)) := by
      simp only [Sync.handle_and_empty_contexts, hfind, hev]
    refine ⟨by rw [hstep], ?_⟩
    intro ev hev2
    rw [hstep]
    show (c.events.filter
        (fun i => i.1.subscription != unsub.subscription)).find?
      (fun i => i.1.subscription == ev.subscription) = none
    rw [List.find?_filter]
    refine List.find?_eq_none.mpr ?_
    intro x _
    simp only [hev2, bne_iff_ne, beq_iff_eq, decide_eq_true_eq]
    rintro ⟨h1, h2⟩
    exact h1 h2
  · intro hev
    have : Sync.handle_and_empty_contexts c (.unsubscribed u) =
        (c, some (.unsubscribed u)) := by
      simp only [Sync.handle_and_empty_contexts, hfind, hev]
    rw [this]
  · cases hev : c.events.find?
        (fun i => i.1.subscription == unsub.subscription) with
    | none => simp only [Sync.handle_and_empty_contexts, hfind, hev]
    | some p =>
      cases p with
      | mk subd k2 => simp only [Sync.handle_and_empty_contexts, hfind, hev]

/-- C3 witness: the amended cascade theorem applied to the concrete context
`ctxC3w`, whose event entry for subscription 42 exists. -/
theorem unsubscribed_cascade_spec_w :
    (Sync.handle_and_empty_contexts ctxC3w (.unsubscribed { request_id := 7 })).1 =
      { ctxC3w with
        unsubscriptions := ctxC3w.unsubscriptions.filter
          (fun i => i.1.subscription != 42)
        events := ctxC3w.events.filter (fun i => i.1.subscription != 42)
        subscriptions := ctxC3w.subscriptions.filter
          (fun i => i.1.request_id != 5) } :=
  (((unsubscribed_cascade_spec ctxC3w { request_id := 7 }
      { request_id := 7, subscription := 42 } 3 rfl).1
    { request_id := 5, subscription := 42 } 6 rfl)).1

/-- C2 (amended): when a `Registered` response matches a pending
registration entry, the dispatch pipeline invokes that entry's callback
with the success payload, but the pending entry is *not* removed: the
resulting live context still finds the same entry for the same request
identifier, so a second identical `Registered` response invokes the
callback again. -/
theorem registered_dispatch_keeps_entry {κ : Type}
    (run : κ → Sync.CbArg → CbContext κ) (cl : Sync.Client κ)
    (r : Registered) (reg : Register) (k : κ)
    (h : cl.context.find_register r = some (reg, k)) :
    ∃ cl' : Sync.Client κ,
      Sync.read_contexts run cl (some (.registered r)) =
        .ok (cl', some (.registered r), some (k, .okArg (.registered r)))
      ∧ cl'.context.find_register r = some (reg, k) := by
  have hfl : ({ cl with context := { cl.context with messages := [] } }
      : Sync.Client κ).context.find_register r = some (reg, k) := h
  refine ⟨{ cl with context := ({ cl.context with messages := [] } : CbContext κ).extend (run k (.okArg (.registered r))) }, ?_, ?_⟩
  · simp only [Sync.read_contexts, Sync.get_message_context, hfl,
      Sync.extend_context]
  · have h' : cl.context.registrations.find?
        (fun i => i.1.request_id == r.request_id) = some (reg, k) := h
    show (cl.context.registrations ++
        (run k (.okArg (.registered r))).registrations).find?
      (fun i => i.1.request_id == r.request_id) = some (reg, k)
    rw [List.find?_append, h']
    rfl

/-- C2 witness: the amended dispatch theorem applied to the concrete client
`clC2` holding the pending registration for request 1. -/
theorem registered_dispatch_keeps_entry_w :
    ∃ cl' : Sync.Client Nat,
      Sync.read_contexts run0 clC2 (some (.registered regC2)) =
        .ok (cl', some (.registered regC2),
          some (7, .okArg (.registered regC2)))
      ∧ cl'.context.find_register regC2 = some ({ request_id := 1 }, 7) :=
  registered_dispatch_keeps_entry run0 clC2 regC2 { request_id := 1 } 7 rfl

/-- C9: a success response (`Registered`, `Unregistered`, `Subscribed`,
`Published`, `Result`, `Invocation`, `Unsubscribed`) whose request
identifier matches no pending entry of its category is returned by
`get_message_context` with no callback context and no invocation record,
and the merge step maps that result to the unchanged client together with
the message. -/
theorem unmatched_success_no_side_effect {κ : Type}
    (run : κ → Sync.CbArg → CbContext κ) (cl : Sync.Client κ) :
    (∀ r : Registered,
      (∀ p ∈ cl.context.registrations, p.1.request_id ≠ r.request_id) →
      Sync.get_message_context run cl (some (.registered r)) =
        .ok (some (.registered r, none, none))
      ∧ Sync.extend_context cl (some (.registered r, none)) =
        (cl, some (.registered r)))
    ∧ (∀ u : Unregistered,
      (∀ p ∈ cl.context.unregistrations, p.1.request_id ≠ u.request_id) →
      Sync.get_message_context run cl (some (.unregistered u)) =
        .ok (some (.unregistered u, none, none))
      ∧ Sync.extend_context cl (some (.unregistered u, none)) =
        (cl, some (.unregistered u)))
    ∧ (∀ s : Subscribed,
      (∀ p ∈ cl.context.subscriptions, p.1.request_id ≠ s.request_id) →
      Sync.get_message_context run cl (some (.subscribed s)) =
        .ok (some (.subscribed s, none, none))
      ∧ Sync.extend_context cl (some (.subscribed s, none)) =
        (cl, some (.subscribed s)))
    ∧ (∀ p : Published,
      (∀ q ∈ cl.context.publications, q.1.request_id ≠ p.request_id) →
      Sync.get_message_context run cl (some (.published p)) =
        .ok (some (.published p, none, none))
      ∧ Sync.extend_context cl (some (.published p, none)) =
        (cl, some (.published p)))
    ∧ (∀ r : WampResult,
      (∀ p ∈ cl.context.calls, p.1.request_id ≠ r.request_id) →
      Sync.get_message_context run cl (some (.result r)) =
        .ok (some (.result r, none, none))
      ∧ Sync.extend_context cl (some (.result r, none)) =
        (cl, some (.result r)))
    ∧ (∀ i : Invocation,
      (∀ p ∈ cl.context.invocations, p.1.request_id ≠ i.request_id) →
      Sync.get_message_context run cl (some (.invocation i)) =
        .ok (some (.invocation i, none, none))
      ∧ Sync.extend_context cl (some (.invocation i, none)) =
        (cl, some (.invocation i)))
    ∧ (∀ u : Unsubscribed,
      (∀ p ∈ cl.context.unsubscriptions, p.1.request_id ≠ u.request_id) →
      Sync.get_message_context run cl (some (.unsubscribed u)) =
        .ok (some (.unsubscribed u, none, none))
      ∧ Sync.extend_context cl (some (.unsubscribed u, none)) =
        (cl, some (.unsubscribed u))) := by
  refine ⟨?_, ?_, ?_, ?_, ?_, ?_, ?_⟩
  · intro r hr
    have hnone : cl.context.find_register r = none :=
      List.find?_eq_none.mpr (fun p hp => by simpa using hr p hp)
    exact ⟨by simp only [Sync.get_message_context, hnone], rfl⟩
  · intro u hu
    have hnone : cl.context.find_unregister u = none :=
      List.find?_eq_none.mpr (fun p hp => by simpa using hu p hp)
    exact ⟨by simp only [Sync.get_message_context, hnone], rfl⟩
  · intro s hs
    have hnone : cl.context.find_subscribe s = none :=
      List.find?_eq_none.mpr (fun p hp => by simpa using hs p hp)
    exact ⟨by simp only [Sync.get_message_context, hnone], rfl⟩
  · intro p hp
    have hnone : cl.context.find_publish p = none :=
      List.find?_eq_none.mpr (fun q hq => by simpa using hp q hq)
    exact ⟨by simp only [Sync.get_message_context, hnone], rfl⟩
  · intro r hr
    have hnone : cl.context.find_call r = none :=
      List.find?_eq_none.mpr (fun p hp => by simpa using hr p hp)
    exact ⟨by simp only [Sync.get_message_context, hnone], rfl⟩
  · intro i hi
    have hnone : cl.context.find_invocation i = none :=
      List.find?_eq_none.mpr (fun p hp => by simpa using hi p hp)
    exact ⟨by simp only [Sync.get_message_context, hnone], rfl⟩
  · intro u hu
    have hnone : cl.context.find_unsubscribe u = none :=
      List.find?_eq_none.mpr (fun p hp => by simpa using hu p hp)
    exact ⟨by simp only [Sync.get_message_context, hnone], rfl⟩

/-- C9 witness: the no-side-effect theorem applied to a client whose only
pending registration carries request identifier 2, receiving
`Registered(request_id = 9)`. -/
theorem unmatched_success_no_side_effect_w :
    Sync.get_message_context run0 clC9 (some (.registered { request_id := 9 })) =
      .ok (some (.registered { request_id := 9 }, none, none))
    ∧ Sync.extend_context clC9 (some (.registered { request_id := 9 }, none)) =
      (clC9, some (.registered { request_id := 9 })) :=
  (unmatched_success_no_side_effect run0 clC9).1 { request_id := 9 } (by decide)

/-- C7: the blocking request helper's poll loop, over a trace of polls from
an injectable clock.  At any poll not past the 10-second timeout: a
populated success cell returns the success value regardless of the error
cell (success is checked first and wins a tie), and a populated error cell
with an empty success cell returns that protocol error.  If neither cell
is ever populated and some poll observes more than 10 seconds elapsed, the
loop returns the timeout error. -/
theorem poll_cells_spec {β : Type} (t : Nat) (b : β) (eo : Option WampError)
    (e : WampError) (rest : List (Nat × Option β × Option WampError))
    (h : ¬ 10000 < t) :
    Threads.poll_cells ((t, some b, eo) :: rest) = some (.ok (.ok b))
    ∧ Threads.poll_cells ((t, none, some e) :: rest) = some (.ok (.error e))
    ∧ ∀ trace : List (Nat × Option β × Option WampError),
        (∀ x ∈ trace, x.2.1 = none ∧ x.2.2 = none) →
        (∃ x ∈ trace, 10000 < x.1) →
        Threads.poll_cells trace = some (.error .timeOutError) := by
  refine ⟨?_, ?_, ?_⟩
  · simp only [Threads.poll_cells, if_neg h]
  · simp only [Threads.poll_cells, if_neg h]
  · intro trace
    induction trace with
    | nil =>
      intro _ hex
      obtain ⟨x, hx, _⟩ := hex
      exact absurd hx (List.not_mem_nil x)
    | cons hd tl ih =>
      obtain ⟨t2, s2, e2⟩ := hd
      intro hcells hex
      have hs : s2 = none := (hcells (t2, s2, e2) (List.mem_cons_self _ _)).1
      have he : e2 = none := (hcells (t2, s2, e2) (List.mem_cons_self _ _)).2
      subst hs
      subst he
      by_cases ht : 10000 < t2
      · simp only [Threads.poll_cells, if_pos ht]
      · have hred : Threads.poll_cells ((t2, (none : Option β),
            (none : Option WampError)) :: tl) = Threads.poll_cells tl := by
          simp only [Threads.poll_cells, if_neg ht]
        rw [hred]
        refine ih (fun x hx => hcells x (List.mem_cons_of_mem _ hx)) ?_
        obtain ⟨x, hx, hx2⟩ := hex
        rcases List.mem_cons.mp hx with heq | hmem
        · rw [heq] at hx2
          exact absurd hx2 ht
        · exact ⟨x, hmem, hx2⟩

/-- C7 witness: the poll-loop theorem at a poll observing 5 elapsed
seconds with a populated success cell, plus the timeout prong on a trace
whose only poll observes 20 elapsed seconds with both cells empty. -/
theorem poll_cells_spec_w :
    Threads.poll_cells [(5000, some subC7, none)] = some (.ok (.ok subC7))
    ∧ Threads.poll_cells [((20000 : Nat), (none : Option Subscribed),
        (none : Option WampError))] = some (.error .timeOutError) :=
  ⟨(poll_cells_spec 5000 subC7 none errC7 [] (by decide)).1,
   (poll_cells_spec 5000 subC7 none errC7 [] (by decide)).2.2
     [(20000, none, none)] (by decide) ⟨(20000, none, none), by decide, by decide⟩⟩

/-- C10: `Subscription::events` with a stored `Subscribed` confirmation
registers an event-listener guard that invokes the user callback exactly
when the incoming event's subscription identifier equals the *request
identifier* of the stored confirmation — not its peer-assigned
subscription identifier. -/
theorem events_listener_guard (s : Threads.Subscription) (sub : Subscribed)
    (h : s.subscribed = some sub) :
    ∃ s' : Threads.Subscription, ∃ rid : Nat, ∃ guard : Event → Bool,
      s.events = .ok (s', rid, guard)
      ∧ ∀ ev : Event, guard ev = true ↔ ev.subscription = sub.request_id := by
  refine ⟨{ s with routing_ids := s.routing_ids ++ [s.client.new_routing_id.1] }, s.client.new_routing_id.1, (fun event => event.subscription == sub.request_id), ?_, ?_⟩
  · simp only [Threads.Subscription.events, h]
  · intro ev
    exact beq_iff_eq

/-- C10 witness: the guard theorem at the concrete subscription `sC10`,
whose stored confirmation has request identifier 3 and subscription
identifier 42. -/
theorem events_listener_guard_w :
    ∃ s' : Threads.Subscription, ∃ rid : Nat, ∃ guard : Event → Bool,
      sC10.events = .ok (s', rid, guard)
      ∧ ∀ ev : Event, guard ev = true ↔ ev.subscription = subC10.request_id :=
  events_listener_guard sC10 subC10 rfl
